import Mathlib

/-!
Shallow embedding of the nvidia-pstated daemon core (src/main.c).

The per-device control state (`gpuState` in C) is `GpuState`; the hardware
libraries (NVAPI / NVML) are abstracted by an oracle `Hw` giving the outcome
of every hardware call, and every operation additionally returns the list of
hardware calls it issued (`Event`), so that statements such as "no hardware
call is made for an unmanaged device" or "the minimum clocks are queried
exactly once" can be expressed.

Machine integers: `unsigned int` fields are modelled as `Nat`; reduction
modulo `2 ^ 32` (`UINT_MOD`) is applied exactly where C narrows a wider
value into an `unsigned int` (the `pstateId` parameter of `enter_pstate`,
and the `memClock` / `gpuClock` locals of `set_clocks`, both assigned from
`unsigned long` expressions).
-/

namespace NvidiaPstated

/-- Modulus of C's `unsigned int`, i.e. `UINT_MAX + 1`. -/
def UINT_MOD : Nat := 2 ^ 32

/-- Constant `ITERATIONS_BEFORE_SWITCH`, 30 (src/main.c:20). -/
def ITERATIONS_BEFORE_SWITCH : Nat := 30

/-- Constant `PERFORMANCE_STATE_HIGH`, 16 (src/main.c:23). -/
def PERFORMANCE_STATE_HIGH : Nat := 16

/-- Constant `PERFORMANCE_STATE_LOW`, 8 (src/main.c:26). -/
def PERFORMANCE_STATE_LOW : Nat := 8

/-- Constant `TEMPERATURE_THRESHOLD`, 80 (src/main.c:32). -/
def TEMPERATURE_THRESHOLD : Nat := 80

/-- The per-GPU state record (`gpuState`, src/main.c:46-66). -/
structure GpuState where
  iterations : Nat
  pstateId : Nat
  managed : Bool
  usingClockControl : Bool
  minMemClock : Nat
  minGpuClock : Nat
  currentMemClock : Nat
  currentGpuClock : Nat
deriving DecidableEq, Repr

/-- C globals have static storage, hence all fields start zero / false. -/
def initGpuState : GpuState :=
  { iterations := 0, pstateId := 0, managed := false, usingClockControl := false
    minMemClock := 0, minGpuClock := 0, currentMemClock := 0, currentGpuClock := 0 }

/-- One hardware call issued by the daemon to NVAPI or NVML. -/
inductive Event where
  | forcePstate (i pstate : Nat)
  | queryMemClocks (i : Nat)
  | queryGpuClocks (i memClock : Nat)
  | setAppClocks (i memClock gpuClock : Nat)
  | resetAppClocks (i : Nat)
deriving DecidableEq, Repr

/-- Oracle fixing the outcome of every hardware call: whether each call
succeeds and which supported-clock lists NVML reports. -/
structure Hw where
  forcePstateOk : Nat → Nat → Bool
  memClocksOk : Nat → Bool
  supportedMemClocks : Nat → List Nat
  gpuClocksOk : Nat → Nat → Bool
  supportedGpuClocks : Nat → Nat → List Nat
  setClocksOk : Nat → Nat → Nat → Bool
  resetClocksOk : Nat → Bool

/-- The scan for the smallest clock in a returned buffer
(src/main.c:141-146 and 168-173): start from entry 0, take the minimum. -/
def lowestClock : List Nat → Nat
  | [] => 0
  | c :: rest => rest.foldl Nat.min c

/-- Embedding of `get_supported_clocks` (src/main.c:109-180): for a managed GPU, query
the supported memory clocks, store the lowest in `minMemClock`, then query
the graphics clocks compatible with it and store the lowest in
`minGpuClock`; fail if a query fails or returns zero results. -/
def get_supported_clocks (hw : Hw) (i : Nat) (s : GpuState) :
    Bool × GpuState × List Event :=
  if s.managed = false then (true, s, [])
  else
    if hw.memClocksOk i = false then (false, s, [Event.queryMemClocks i])
    else
      let memClocks := hw.supportedMemClocks i
      if memClocks.length = 0 then (false, s, [Event.queryMemClocks i])
      else
        let lowestMemClock := lowestClock memClocks
        let s1 := { s with minMemClock := lowestMemClock }
        if hw.gpuClocksOk i lowestMemClock = false then
          (false, s1, [Event.queryMemClocks i, Event.queryGpuClocks i lowestMemClock])
        else
          let gpuClocks := hw.supportedGpuClocks i lowestMemClock
          if gpuClocks.length = 0 then
            (false, s1, [Event.queryMemClocks i, Event.queryGpuClocks i lowestMemClock])
          else
            (true, { s1 with minGpuClock := lowestClock gpuClocks },
              [Event.queryMemClocks i, Event.queryGpuClocks i lowestMemClock])

/-- Embedding of `set_clocks` (src/main.c:182-233). The clock frequencies are
`unsigned long` parameters; the `memClock` / `gpuClock` locals are
`unsigned int`, hence the `% UINT_MOD` at the assignment. -/
def set_clocks (hw : Hw) (i : Nat) (highPerformance : Bool)
    (memFreqHigh gpuFreqHigh memFreqLow gpuFreqLow : Nat) (s : GpuState) :
    Bool × GpuState × List Event :=
  if s.managed = false then (true, s, [])
  else if highPerformance = true ∧ memFreqHigh = 0 ∧ gpuFreqHigh = 0 then
    if hw.resetClocksOk i = false then (false, s, [Event.resetAppClocks i])
    else
      (true, { s with currentMemClock := 0, currentGpuClock := 0 },
        [Event.resetAppClocks i])
  else
    let memClock :=
      (if highPerformance then memFreqHigh
       else if memFreqLow > 0 then memFreqLow else s.minMemClock) % UINT_MOD
    let gpuClock :=
      (if highPerformance then gpuFreqHigh
       else if gpuFreqLow > 0 then gpuFreqLow else s.minGpuClock) % UINT_MOD
    if hw.setClocksOk i memClock gpuClock = false then
      (false, s, [Event.setAppClocks i memClock gpuClock])
    else
      (true, { s with currentMemClock := memClock, currentGpuClock := gpuClock },
        [Event.setAppClocks i memClock gpuClock])

/-- Embedding of `enter_pstate` (src/main.c:235-305). `pstateId` is the already-narrowed
`unsigned int` parameter. On the native path a failing
`NvAPI_GPU_SetForcePstate` with fallback enabled queries the supported
clocks, marks the device as clock-controlled and applies the level through
`set_clocks`; every successful path ends by resetting `iterations` and
storing the new `pstateId`. -/
def enter_pstate (hw : Hw) (enableClockFallback : Bool) (i pstateId : Nat)
    (memFreqHigh gpuFreqHigh memFreqLow gpuFreqLow : Nat) (s : GpuState) :
    Bool × GpuState × List Event :=
  if s.managed = false then (true, s, [])
  else if s.usingClockControl then
    let r := set_clocks hw i (pstateId = PERFORMANCE_STATE_HIGH)
      memFreqHigh gpuFreqHigh memFreqLow gpuFreqLow s
    if r.1 = false then (false, r.2.1, r.2.2)
    else (true, { r.2.1 with iterations := 0, pstateId := pstateId }, r.2.2)
  else if hw.forcePstateOk i pstateId then
    (true, { s with iterations := 0, pstateId := pstateId }, [Event.forcePstate i pstateId])
  else if enableClockFallback then
    let q := get_supported_clocks hw i s
    if q.1 = false then (false, q.2.1, Event.forcePstate i pstateId :: q.2.2)
    else
      let s2 := { q.2.1 with usingClockControl := true }
      let r := set_clocks hw i (pstateId = PERFORMANCE_STATE_HIGH)
        memFreqHigh gpuFreqHigh memFreqLow gpuFreqLow s2
      if r.1 = false then (false, r.2.1, Event.forcePstate i pstateId :: (q.2.2 ++ r.2.2))
      else
        (true, { r.2.1 with iterations := 0, pstateId := pstateId },
          Event.forcePstate i pstateId :: (q.2.2 ++ r.2.2))
  else (false, s, [Event.forcePstate i pstateId])

/-- The run-time options of `run` (src/main.c:309-320), immutable after
option parsing. -/
structure Config where
  iterationsBeforeSwitch : Nat
  performanceStateHigh : Nat
  performanceStateLow : Nat
  temperatureThreshold : Nat
  clockFreqMemHigh : Nat
  clockFreqGpuHigh : Nat
  clockFreqMemLow : Nat
  clockFreqGpuLow : Nat
  enableClockFallback : Bool
deriving DecidableEq, Repr

/-- The built-in defaults of src/main.c:20-41. -/
def defaultConfig : Config :=
  { iterationsBeforeSwitch := ITERATIONS_BEFORE_SWITCH
    performanceStateHigh := PERFORMANCE_STATE_HIGH
    performanceStateLow := PERFORMANCE_STATE_LOW
    temperatureThreshold := TEMPERATURE_THRESHOLD
    clockFreqMemHigh := 0, clockFreqGpuHigh := 0
    clockFreqMemLow := 0, clockFreqGpuLow := 0
    enableClockFallback := true }

/-- One device's share of one iteration of the main loop
(src/main.c:657-707), given the sampled temperature and utilization.
The `Bool` is false when a failing `enter_pstate` sends `run` to
`errored`. -/
def tick (hw : Hw) (cfg : Config) (i temperature utilization : Nat) (s : GpuState) :
    Bool × GpuState × List Event :=
  if temperature > cfg.temperatureThreshold then
    if s.pstateId ≠ cfg.performanceStateLow then
      enter_pstate hw cfg.enableClockFallback i (cfg.performanceStateLow % UINT_MOD)
        cfg.clockFreqMemHigh cfg.clockFreqGpuHigh cfg.clockFreqMemLow cfg.clockFreqGpuLow s
    else (true, s, [])
  else if utilization ≠ 0 then
    if s.pstateId ≠ cfg.performanceStateHigh then
      enter_pstate hw cfg.enableClockFallback i (cfg.performanceStateHigh % UINT_MOD)
        cfg.clockFreqMemHigh cfg.clockFreqGpuHigh cfg.clockFreqMemLow cfg.clockFreqGpuLow s
    else (true, { s with iterations := 0 }, [])
  else
    if s.pstateId ≠ cfg.performanceStateLow then
      if s.iterations > cfg.iterationsBeforeSwitch then
        let r := enter_pstate hw cfg.enableClockFallback i (cfg.performanceStateLow % UINT_MOD)
          cfg.clockFreqMemHigh cfg.clockFreqGpuHigh cfg.clockFreqMemLow cfg.clockFreqGpuLow s
        if r.1 = false then (false, r.2.1, r.2.2)
        else (true, { r.2.1 with iterations := (r.2.1.iterations + 1) % UINT_MOD }, r.2.2)
      else (true, { s with iterations := (s.iterations + 1) % UINT_MOD }, [])
    else (true, s, [])

/-- Run of `k` consecutive ticks for one device, numbering ticks from `t`; the
temperature and utilization sampled at tick `t` are `temps t` / `utils t`.
Stops (with `false`) as soon as a tick fails. -/
def runTicks (hw : Hw) (cfg : Config) (i : Nat) (temps utils : Nat → Nat) :
    Nat → Nat → GpuState → Bool × GpuState
  | _, 0, s => (true, s)
  | t, k + 1, s =>
    let r := tick hw cfg i (temps t) (utils t) s
    if r.1 = false then (false, r.2.1)
    else runTicks hw cfg i temps utils (t + 1) k r.2.1

/-- The shutdown action for one device (src/main.c:722-738): a
clock-controlled device gets its application clocks reset (a failure only
prints a warning), any other device goes through
`enter_pstate(i, 16, ...)` whose failure aborts the remaining devices. -/
def shutdown_device (hw : Hw) (cfg : Config) (i : Nat) (s : GpuState) :
    Bool × GpuState × List Event :=
  if s.usingClockControl then (true, s, [Event.resetAppClocks i])
  else
    enter_pstate hw cfg.enableClockFallback i 16
      cfg.clockFreqMemHigh cfg.clockFreqGpuHigh cfg.clockFreqMemLow cfg.clockFreqGpuLow s

/-- The inner scan of the identity reconciliation (src/main.c:508-518):
the first NVAPI index whose bus id equals `v`, if any. -/
def findMatch (v : Nat) (busB : List Nat) : Option Nat :=
  busB.findIdx? (fun w => w == v)

/-- The identity reconciliation (src/main.c:475-523): entry `i` is the
NVAPI index matched to canonical (NVML) device `i`, or `none` when no NVAPI
bus id equals NVML bus id `i` — in which case the C code leaves
`sortedNvapiDevices[i]` uninitialized and carries on. -/
def reconcile (busA busB : List Nat) : List (Option Nat) :=
  busA.map (fun v => findMatch v busB)

/-- The id validation of src/main.c:574: `id < 0 || id > deviceCount`,
written on the unsigned value exactly as in C. -/
def invalid_id (id deviceCount : Nat) : Bool :=
  decide (id < 0) || decide (id > deviceCount)

/-- The explicit-id marking loop (src/main.c:569-587): every id passing
`invalid_id` marks `gpuStates[id]` as managed; invalid ids are skipped.
The state table is modelled as a total function on indices. -/
def apply_ids (ids : List Nat) (deviceCount : Nat) (states : Nat → GpuState) :
    Nat → GpuState :=
  ids.foldl
    (fun st id =>
      if invalid_id id deviceCount then st
      else fun j => if j = id then { st j with managed := true } else st j)
    states

/-- An oracle on which every hardware call succeeds; NVML reports a single
405 MHz memory clock and a single 210 MHz graphics clock. -/
def hwAllOk : Hw :=
  { forcePstateOk := fun _ _ => true
    memClocksOk := fun _ => true
    supportedMemClocks := fun _ => [405]
    gpuClocksOk := fun _ _ => true
    supportedGpuClocks := fun _ _ => [210]
    setClocksOk := fun _ _ _ => true
    resetClocksOk := fun _ => true }

/-- Like `hwAllOk` but every native force-pstate call is rejected, as on a
GPU whose driver refuses `NvAPI_GPU_SetForcePstate`. -/
def hwNoPstate : Hw :=
  { hwAllOk with forcePstateOk := fun _ _ => false }

/-! ## Helper lemmas -/

/-- Whether a hardware call is a supported-memory-clocks query. -/
def isMemQuery : Event → Bool
  | Event.queryMemClocks _ => true
  | _ => false

/-- Number of supported-memory-clocks queries in a trace. -/
def memQueryCount (tr : List Event) : Nat :=
  tr.countP isMemQuery

theorem set_clocks_preserves (hw : Hw) (i : Nat) (hp : Bool) (a b c d : Nat)
    (s : GpuState) :
    (set_clocks hw i hp a b c d s).2.1.managed = s.managed ∧
    (set_clocks hw i hp a b c d s).2.1.usingClockControl = s.usingClockControl ∧
    (set_clocks hw i hp a b c d s).2.1.minMemClock = s.minMemClock ∧
    (set_clocks hw i hp a b c d s).2.1.minGpuClock = s.minGpuClock ∧
    (set_clocks hw i hp a b c d s).2.1.iterations = s.iterations ∧
    (set_clocks hw i hp a b c d s).2.1.pstateId = s.pstateId := by
  unfold set_clocks
  split
  · simp
  · split
    · split <;> simp
    · dsimp only
      split <;> (try split) <;> (try split) <;> (try split) <;> simp

theorem set_clocks_no_mem_query (hw : Hw) (i : Nat) (hp : Bool) (a b c d : Nat)
    (s : GpuState) :
    memQueryCount (set_clocks hw i hp a b c d s).2.2 = 0 := by
  unfold set_clocks
  split
  · simp [memQueryCount]
  · split
    · split <;> simp [memQueryCount, isMemQuery]
    · dsimp only
      split <;> (try split) <;> (try split) <;> (try split) <;> simp [memQueryCount, isMemQuery]

theorem set_clocks_no_force (hw : Hw) (i : Nat) (hp : Bool) (a b c d : Nat)
    (s : GpuState) (j q : Nat) :
    Event.forcePstate j q ∉ (set_clocks hw i hp a b c d s).2.2 := by
  unfold set_clocks
  split
  · simp
  · split
    · split <;> simp
    · dsimp only
      split <;> (try split) <;> (try split) <;> (try split) <;> simp

theorem set_clocks_trace_shape (hw : Hw) (i : Nat) (hp : Bool) (a b c d : Nat)
    (s : GpuState) (hm : s.managed = true) :
    (∃ m g, (set_clocks hw i hp a b c d s).2.2 = [Event.setAppClocks i m g]) ∨
    (set_clocks hw i hp a b c d s).2.2 = [Event.resetAppClocks i] := by
  unfold set_clocks
  split
  · simp_all
  · split
    · right; split <;> rfl
    · left; dsimp only
      split <;> (try split) <;> (try split) <;> (try split) <;> exact ⟨_, _, rfl⟩

theorem get_supported_clocks_success (hw : Hw) (i : Nat) (s : GpuState)
    (hm : s.managed = true) (hmem : hw.memClocksOk i = true)
    (hmemne : (hw.supportedMemClocks i).length ≠ 0)
    (hgpu : hw.gpuClocksOk i (lowestClock (hw.supportedMemClocks i)) = true)
    (hgpune : (hw.supportedGpuClocks i (lowestClock (hw.supportedMemClocks i))).length ≠ 0) :
    get_supported_clocks hw i s =
      (true,
        { s with
            minMemClock := lowestClock (hw.supportedMemClocks i)
            minGpuClock :=
              lowestClock (hw.supportedGpuClocks i (lowestClock (hw.supportedMemClocks i))) },
        [Event.queryMemClocks i,
          Event.queryGpuClocks i (lowestClock (hw.supportedMemClocks i))]) := by
  unfold get_supported_clocks
  rw [hm, hmem]
  simp [hmemne, hgpu, hgpune]

theorem enter_pstate_ok_fields (hw : Hw) (en : Bool) (i p a b c d : Nat) (s : GpuState)
    (hm : s.managed = true)
    (hok : (enter_pstate hw en i p a b c d s).1 = true) :
    (enter_pstate hw en i p a b c d s).2.1.pstateId = p ∧
    (enter_pstate hw en i p a b c d s).2.1.iterations = 0 := by
  revert hok
  unfold enter_pstate
  split
  · simp_all
  · split
    · dsimp only
      split
      · intro hok; simp at hok
      · intro _; simp
    · split
      · intro _; simp
      · split
        · dsimp only
          split
          · intro hok; simp at hok
          · split
            · intro hok; simp at hok
            · intro _; simp
        · intro hok; simp at hok

theorem enter_pstate_override_no_query (hw : Hw) (en : Bool) (i p a b c d : Nat)
    (s : GpuState) (h : s.usingClockControl = true) :
    memQueryCount (enter_pstate hw en i p a b c d s).2.2 = 0 := by
  unfold enter_pstate
  split
  · simp [memQueryCount]
  · (try dsimp only)
    split
    · exact set_clocks_no_mem_query ..
    · exact set_clocks_no_mem_query ..

/-! ## C9 -/

/-- C9: for an unmanaged device, `enter_pstate`, `set_clocks` and
`get_supported_clocks` return success immediately, leave the device state
unchanged in every field, and issue no hardware call. -/
theorem unmanaged_device_noop (hw : Hw) (en hp : Bool) (i p a b c d : Nat)
    (s : GpuState) (h : s.managed = false) :
    enter_pstate hw en i p a b c d s = (true, s, []) ∧
    set_clocks hw i hp a b c d s = (true, s, []) ∧
    get_supported_clocks hw i s = (true, s, []) := by
  refine ⟨?_, ?_, ?_⟩ <;> simp [enter_pstate, set_clocks, get_supported_clocks, h]

/-- Witness for C9 at a concrete unmanaged device. -/
theorem unmanaged_device_noop_witness :
    initGpuState.managed = false ∧
    enter_pstate hwAllOk true 0 8 0 0 0 0 initGpuState = (true, initGpuState, []) ∧
    set_clocks hwAllOk 0 true 0 0 0 0 initGpuState = (true, initGpuState, []) ∧
    get_supported_clocks hwAllOk 0 initGpuState = (true, initGpuState, []) :=
  ⟨rfl, unmanaged_device_noop hwAllOk true true 0 8 0 0 0 0 initGpuState rfl⟩

/-! ## C2 -/

/-- C2: a canonical bus id absent from the other source's list is matched
to `none` — the reconciliation model neither fails nor produces a mapping
entry; the C code (src/main.c:508-518) correspondingly leaves
`sortedNvapiDevices[0]` uninitialized and carries on without any error. -/
theorem reconcile_unmatched_silently_skipped :
    reconcile [3] [1] = [none] := rfl

/-! ## C4 -/

/-- C4: once a device is on the override (clock-control) path, every
further `enter_pstate` call leaves it on that path and issues no native
force-pstate call, for any level or clock arguments. -/
theorem override_path_permanent (hw : Hw) (en : Bool) (i p a b c d : Nat)
    (s : GpuState) (h : s.usingClockControl = true) :
    (enter_pstate hw en i p a b c d s).2.1.usingClockControl = true ∧
    ∀ j q, Event.forcePstate j q ∉ (enter_pstate hw en i p a b c d s).2.2 := by
  unfold enter_pstate
  split
  · simpa using h
  · (try dsimp only)
    split
    · exact ⟨((set_clocks_preserves ..).2.1).trans h,
        fun j q => set_clocks_no_force hw i (decide (p = PERFORMANCE_STATE_HIGH)) a b c d s j q⟩
    · exact ⟨((set_clocks_preserves ..).2.1).trans h,
        fun j q => set_clocks_no_force hw i (decide (p = PERFORMANCE_STATE_HIGH)) a b c d s j q⟩

/-- Witness for C4: a concrete device already on the override path. -/
theorem override_path_permanent_witness :
    ({ initGpuState with managed := true, usingClockControl := true } : GpuState).usingClockControl = true ∧
    (enter_pstate hwAllOk true 0 16 0 0 0 0
        { initGpuState with managed := true, usingClockControl := true }).2.1.usingClockControl = true ∧
    ∀ j q, Event.forcePstate j q ∉
      (enter_pstate hwAllOk true 0 16 0 0 0 0
        { initGpuState with managed := true, usingClockControl := true }).2.2 :=
  ⟨rfl, override_path_permanent hwAllOk true 0 16 0 0 0 0
    { initGpuState with managed := true, usingClockControl := true } rfl⟩

/-! ## C6 -/

/-- C6 counterexample: a HIGH device with hysteresis counter 5 that is
forced LOW by the thermal check (ceiling 80, temperature 85) ends the tick
with counter 0, not with its prior value 5 — `enter_pstate` resets the
counter on every successful transition (src/main.c:294-295). -/
theorem thermal_counter_not_preserved_cex :
    (tick hwAllOk defaultConfig 0 85 0
        { initGpuState with managed := true, pstateId := 16, iterations := 5 }).2.1.iterations = 0 ∧
    ¬((tick hwAllOk defaultConfig 0 85 0
        { initGpuState with managed := true, pstateId := 16, iterations := 5 }).2.1.iterations =
      ({ initGpuState with managed := true, pstateId := 16, iterations := 5 } : GpuState).iterations) := by
  exact ⟨rfl, by decide⟩

/-- C6 (amended): when the thermal ceiling forces a managed device that is
not already LOW into the LOW level, the transition goes through
`enter_pstate`, which resets the hysteresis counter to 0 (rather than
leaving it unchanged). -/
theorem thermal_transition_resets_counter (hw : Hw) (cfg : Config) (i temp util : Nat)
    (s : GpuState) (hm : s.managed = true) (hht : temp > cfg.temperatureThreshold)
    (hne : ¬s.pstateId = cfg.performanceStateLow)
    (hok : (tick hw cfg i temp util s).1 = true) :
    (tick hw cfg i temp util s).2.1.iterations = 0 := by
  have h1 : tick hw cfg i temp util s =
      enter_pstate hw cfg.enableClockFallback i (cfg.performanceStateLow % UINT_MOD)
        cfg.clockFreqMemHigh cfg.clockFreqGpuHigh cfg.clockFreqMemLow cfg.clockFreqGpuLow s := by
    simp [tick, hht, hne]
  rw [h1] at hok ⊢
  exact (enter_pstate_ok_fields _ _ _ _ _ _ _ _ _ hm hok).2

/-- Witness for C6 at a concrete overheated device. -/
theorem thermal_transition_resets_counter_witness :
    (85 : Nat) > defaultConfig.temperatureThreshold ∧
    (tick hwAllOk defaultConfig 0 85 0
        { initGpuState with managed := true, pstateId := 16, iterations := 5 }).2.1.iterations = 0 :=
  ⟨by decide,
    thermal_transition_resets_counter hwAllOk defaultConfig 0 85 0
      { initGpuState with managed := true, pstateId := 16, iterations := 5 }
      rfl (by decide) (by decide) (by decide)⟩

/-! ## C3 -/

/-- C3: on any tick whose sampled temperature exceeds the ceiling, a
managed device whose tick completes ends the tick in the LOW level,
whatever its prior level, hysteresis count or utilization; the utilization
and hysteresis steps are skipped — the tick's outcome is independent of
the utilization sample. -/
theorem thermal_forces_low (hw : Hw) (cfg : Config) (i temp util util2 : Nat)
    (s : GpuState) (hm : s.managed = true)
    (hlow : cfg.performanceStateLow < UINT_MOD)
    (hht : temp > cfg.temperatureThreshold)
    (hok : (tick hw cfg i temp util s).1 = true) :
    (tick hw cfg i temp util s).2.1.pstateId = cfg.performanceStateLow ∧
    tick hw cfg i temp util s = tick hw cfg i temp util2 s := by
  constructor
  · by_cases heq : s.pstateId = cfg.performanceStateLow
    · have h1 : tick hw cfg i temp util s = (true, s, []) := by simp [tick, hht, heq]
      rw [h1]
      exact heq
    · have h1 : tick hw cfg i temp util s =
          enter_pstate hw cfg.enableClockFallback i (cfg.performanceStateLow % UINT_MOD)
            cfg.clockFreqMemHigh cfg.clockFreqGpuHigh cfg.clockFreqMemLow cfg.clockFreqGpuLow s := by
        simp [tick, hht, heq]
      rw [h1] at hok ⊢
      rw [(enter_pstate_ok_fields _ _ _ _ _ _ _ _ _ hm hok).1]
      exact Nat.mod_eq_of_lt hlow
  · simp [tick, hht]

/-- Witness for C3: an overheated HIGH device is forced LOW, and the tick
ignores the utilization sample (0 vs 50). -/
theorem thermal_forces_low_witness :
    defaultConfig.performanceStateLow < UINT_MOD ∧
    (85 : Nat) > defaultConfig.temperatureThreshold ∧
    ((tick hwAllOk defaultConfig 0 85 0
        { initGpuState with managed := true, pstateId := 16, iterations := 3 }).2.1.pstateId =
      defaultConfig.performanceStateLow ∧
     tick hwAllOk defaultConfig 0 85 0
        { initGpuState with managed := true, pstateId := 16, iterations := 3 } =
       tick hwAllOk defaultConfig 0 85 50
        { initGpuState with managed := true, pstateId := 16, iterations := 3 }) :=
  ⟨by decide, by decide,
    thermal_forces_low hwAllOk defaultConfig 0 85 0 50
      { initGpuState with managed := true, pstateId := 16, iterations := 3 }
      rfl (by decide) (by decide) (by decide)⟩

/-! ## C7 -/

/-- C7 counterexample: with the high performance state configured to 12,
the shutdown action still drives a NATIVE-path device to pstate 16
(src/main.c:735 hard-codes 16), not to the configured HIGH level. -/
theorem shutdown_not_configured_high_cex :
    (shutdown_device hwAllOk { defaultConfig with performanceStateHigh := 12 } 0
        { initGpuState with managed := true, pstateId := 8 }).1 = true ∧
    (shutdown_device hwAllOk { defaultConfig with performanceStateHigh := 12 } 0
        { initGpuState with managed := true, pstateId := 8 }).2.1.pstateId = 16 ∧
    ¬((shutdown_device hwAllOk { defaultConfig with performanceStateHigh := 12 } 0
        { initGpuState with managed := true, pstateId := 8 }).2.1.pstateId =
      ({ defaultConfig with performanceStateHigh := 12 } : Config).performanceStateHigh) := by
  exact ⟨rfl, rfl, by decide⟩

/-- C7 (amended): at shutdown, a device on the override path gets exactly
one clock reset and keeps its state (no level is forced); a managed device
still on the native path whose `enter_pstate` call completes ends at the
hard-coded pstate 16 (the built-in default HIGH), not at the configured
high level. -/
theorem shutdown_native_override_actions (hw : Hw) (cfg : Config) (i : Nat)
    (s : GpuState) :
    (s.usingClockControl = true →
      shutdown_device hw cfg i s = (true, s, [Event.resetAppClocks i])) ∧
    (s.usingClockControl = false → s.managed = true →
      (shutdown_device hw cfg i s).1 = true →
      (shutdown_device hw cfg i s).2.1.pstateId = 16 ∧
      (shutdown_device hw cfg i s).2.1.iterations = 0) := by
  constructor
  · intro h; simp [shutdown_device, h]
  · intro h hm hok
    have h1 : shutdown_device hw cfg i s =
        enter_pstate hw cfg.enableClockFallback i 16
          cfg.clockFreqMemHigh cfg.clockFreqGpuHigh cfg.clockFreqMemLow cfg.clockFreqGpuLow s := by
      simp [shutdown_device, h]
    rw [h1] at hok ⊢
    exact enter_pstate_ok_fields _ _ _ _ _ _ _ _ _ hm hok

/-- Witness for C7: one override-path device and one native-path device. -/
theorem shutdown_native_override_actions_witness :
    shutdown_device hwAllOk defaultConfig 0
        { initGpuState with managed := true, usingClockControl := true, pstateId := 8 } =
      (true, { initGpuState with managed := true, usingClockControl := true, pstateId := 8 },
        [Event.resetAppClocks 0]) ∧
    (shutdown_device hwAllOk defaultConfig 1
        { initGpuState with managed := true, pstateId := 8 }).2.1.pstateId = 16 ∧
    (shutdown_device hwAllOk defaultConfig 1
        { initGpuState with managed := true, pstateId := 8 }).2.1.iterations = 0 :=
  ⟨(shutdown_native_override_actions hwAllOk defaultConfig 0 _).1 rfl,
   (shutdown_native_override_actions hwAllOk defaultConfig 1
      { initGpuState with managed := true, pstateId := 8 }).2 rfl rfl (by decide)⟩

/-! ## C5 -/

theorem enter_pstate_fallback_eq (hw : Hw) (i p a b c d : Nat) (s : GpuState)
    (hm : s.managed = true) (hn : s.usingClockControl = false)
    (hfail : hw.forcePstateOk i p = false) :
    enter_pstate hw true i p a b c d s =
      (let q := get_supported_clocks hw i s
       if q.1 = false then (false, q.2.1, Event.forcePstate i p :: q.2.2)
       else
         let s2 := { q.2.1 with usingClockControl := true }
         let r := set_clocks hw i (decide (p = PERFORMANCE_STATE_HIGH)) a b c d s2
         if r.1 = false then
           (false, r.2.1, Event.forcePstate i p :: (q.2.2 ++ r.2.2))
         else
           (true, { r.2.1 with iterations := 0, pstateId := p },
             Event.forcePstate i p :: (q.2.2 ++ r.2.2))) := by
  unfold enter_pstate
  rw [hm, hn, hfail]
  simp

/-- C5: on the first native level-set failure for a managed device with
fallback enabled (and successful clock queries), the minimum supported
clocks are queried exactly once and cached on the device record, the
control path switches to OVERRIDE, the requested level is applied through
an explicit clock call, and any second request for the same device issues
no further supported-clock query. -/
theorem fallback_caches_min_clocks_once (hw : Hw) (i p a b c d : Nat) (s : GpuState)
    (hm : s.managed = true) (hn : s.usingClockControl = false)
    (hfail : hw.forcePstateOk i p = false)
    (hmem : hw.memClocksOk i = true)
    (hmemne : (hw.supportedMemClocks i).length ≠ 0)
    (hgpu : hw.gpuClocksOk i (lowestClock (hw.supportedMemClocks i)) = true)
    (hgpune : (hw.supportedGpuClocks i (lowestClock (hw.supportedMemClocks i))).length ≠ 0)
    (hok : (enter_pstate hw true i p a b c d s).1 = true) :
    memQueryCount (enter_pstate hw true i p a b c d s).2.2 = 1 ∧
    (enter_pstate hw true i p a b c d s).2.1.usingClockControl = true ∧
    (enter_pstate hw true i p a b c d s).2.1.minMemClock =
      lowestClock (hw.supportedMemClocks i) ∧
    (enter_pstate hw true i p a b c d s).2.1.minGpuClock =
      lowestClock (hw.supportedGpuClocks i (lowestClock (hw.supportedMemClocks i))) ∧
    (enter_pstate hw true i p a b c d s).2.1.pstateId = p ∧
    ((∃ m g, Event.setAppClocks i m g ∈ (enter_pstate hw true i p a b c d s).2.2) ∨
      Event.resetAppClocks i ∈ (enter_pstate hw true i p a b c d s).2.2) ∧
    ∀ p2 a2 b2 c2 d2,
      memQueryCount
        (enter_pstate hw true i p2 a2 b2 c2 d2
          (enter_pstate hw true i p a b c d s).2.1).2.2 = 0 := by
  have hq := get_supported_clocks_success hw i s hm hmem hmemne hgpu hgpune
  rw [enter_pstate_fallback_eq hw i p a b c d s hm hn hfail] at hok ⊢
  rw [hq] at hok ⊢
  dsimp only at hok ⊢
  rw [if_neg (by decide : ¬((true : Bool) = false))] at hok ⊢
  by_cases hsc :
      (set_clocks hw i (decide (p = PERFORMANCE_STATE_HIGH)) a b c d
        { s with
            minMemClock := lowestClock (hw.supportedMemClocks i)
            minGpuClock :=
              lowestClock (hw.supportedGpuClocks i (lowestClock (hw.supportedMemClocks i)))
            usingClockControl := true }).1 = false
  · rw [if_pos hsc] at hok
    exact absurd hok (by simp)
  · rw [if_neg hsc] at hok ⊢
    have hpres := set_clocks_preserves hw i (decide (p = PERFORMANCE_STATE_HIGH)) a b c d
      { s with
          minMemClock := lowestClock (hw.supportedMemClocks i)
          minGpuClock :=
            lowestClock (hw.supportedGpuClocks i (lowestClock (hw.supportedMemClocks i)))
          usingClockControl := true }
    have hqz := set_clocks_no_mem_query hw i (decide (p = PERFORMANCE_STATE_HIGH)) a b c d
      { s with
          minMemClock := lowestClock (hw.supportedMemClocks i)
          minGpuClock :=
            lowestClock (hw.supportedGpuClocks i (lowestClock (hw.supportedMemClocks i)))
          usingClockControl := true }
    refine ⟨?_, ?_, ?_, ?_, rfl, ?_, ?_⟩
    · simp only [memQueryCount] at hqz ⊢
      simp [List.countP_cons, List.countP_append, isMemQuery, hqz]
    · exact hpres.2.1
    · exact hpres.2.2.1
    · exact hpres.2.2.2.1
    · have hsh := set_clocks_trace_shape hw i (decide (p = PERFORMANCE_STATE_HIGH)) a b c d
        { s with
            minMemClock := lowestClock (hw.supportedMemClocks i)
            minGpuClock :=
              lowestClock (hw.supportedGpuClocks i (lowestClock (hw.supportedMemClocks i)))
            usingClockControl := true } hm
      rcases hsh with ⟨m, g, hmg⟩ | hr
      · exact Or.inl ⟨m, g, by rw [hmg]; simp⟩
      · exact Or.inr (by rw [hr]; simp)
    · intro p2 a2 b2 c2 d2
      exact enter_pstate_override_no_query hw true i p2 a2 b2 c2 d2 _ hpres.2.1

/-- Witness for C5: a managed device on `hwNoPstate` falls back on its
first level-set request and caches the minimum clocks; a second request
issues no further supported-clock query. -/
theorem fallback_caches_min_clocks_once_witness :
    (enter_pstate hwNoPstate true 0 8 0 0 0 0 { initGpuState with managed := true }).1 = true ∧
    memQueryCount
      (enter_pstate hwNoPstate true 0 8 0 0 0 0 { initGpuState with managed := true }).2.2 = 1 ∧
    (enter_pstate hwNoPstate true 0 8 0 0 0 0
      { initGpuState with managed := true }).2.1.usingClockControl = true ∧
    (enter_pstate hwNoPstate true 0 8 0 0 0 0
      { initGpuState with managed := true }).2.1.minMemClock = 405 ∧
    (enter_pstate hwNoPstate true 0 8 0 0 0 0
      { initGpuState with managed := true }).2.1.minGpuClock = 210 ∧
    memQueryCount
      (enter_pstate hwNoPstate true 0 16 0 0 0 0
        (enter_pstate hwNoPstate true 0 8 0 0 0 0
          { initGpuState with managed := true }).2.1).2.2 = 0 :=
  let h := fallback_caches_min_clocks_once hwNoPstate 0 8 0 0 0 0
    { initGpuState with managed := true } rfl rfl rfl rfl (by decide) rfl (by decide) (by decide)
  ⟨by decide, h.1, h.2.1, h.2.2.1, h.2.2.2.1, h.2.2.2.2.2.2 16 0 0 0 0⟩

/-! ## C1 -/

theorem tick_idle_noswitch (hw : Hw) (cfg : Config) (i temp util : Nat) (s : GpuState)
    (hp : ¬s.pstateId = cfg.performanceStateLow)
    (ht : ¬temp > cfg.temperatureThreshold)
    (hu : util = 0)
    (hiter : ¬s.iterations > cfg.iterationsBeforeSwitch) :
    tick hw cfg i temp util s =
      (true, { s with iterations := (s.iterations + 1) % UINT_MOD }, []) := by
  simp [tick, ht, hu, hp, hiter]

theorem runTicks_idle_phase (hw : Hw) (cfg : Config) (i : Nat) (temps utils : Nat → Nat) :
    ∀ (k t : Nat) (s : GpuState),
      ¬s.pstateId = cfg.performanceStateLow →
      (∀ u, t ≤ u → u < t + k → temps u ≤ cfg.temperatureThreshold ∧ utils u = 0) →
      s.iterations + k ≤ cfg.iterationsBeforeSwitch + 1 →
      cfg.iterationsBeforeSwitch + 1 < UINT_MOD →
      runTicks hw cfg i temps utils t k s = (true, { s with iterations := s.iterations + k }) := by
  intro k
  induction k with
  | zero => intro t s hp hidle hbound hmod; simp [runTicks]
  | succ k ih =>
    intro t s hp hidle hbound hmod
    have hnt : ¬temps t > cfg.temperatureThreshold := by
      have := (hidle t le_rfl (by omega)).1; omega
    have hstep := tick_idle_noswitch hw cfg i (temps t) (utils t) s hp hnt
      ((hidle t le_rfl (by omega)).2) (by omega)
    have hmono : (s.iterations + 1) % UINT_MOD = s.iterations + 1 :=
      Nat.mod_eq_of_lt (by omega)
    rw [runTicks, hstep]
    dsimp only
    rw [if_neg (by decide : ¬((true : Bool) = false)), hmono]
    rw [ih (t + 1) { s with iterations := s.iterations + 1 } hp
      (fun u hu1 hu2 => hidle u (by omega) (by omega))
      (by omega : s.iterations + 1 + k ≤ cfg.iterationsBeforeSwitch + 1) hmod]
    have h1 : s.iterations + 1 + k = s.iterations + (k + 1) := by omega
    simp [h1]

theorem runTicks_append (hw : Hw) (cfg : Config) (i : Nat) (temps utils : Nat → Nat)
    (m : Nat) (s' : GpuState) :
    ∀ (k t : Nat) (s : GpuState),
      runTicks hw cfg i temps utils t k s = (true, s') →
      runTicks hw cfg i temps utils t (k + m) s =
        runTicks hw cfg i temps utils (t + k) m s' := by
  intro k
  induction k with
  | zero =>
    intro t s h
    have hs : s = s' := by simpa [runTicks] using h
    subst hs
    simp [Nat.zero_add]
  | succ k ih =>
    intro t s h
    rw [runTicks] at h
    have hk1m : k + 1 + m = (k + m) + 1 := by omega
    rw [hk1m, runTicks]
    by_cases htk : (tick hw cfg i (temps t) (utils t) s).1 = false
    · rw [if_pos htk] at h
      exact absurd h (by simp)
    · rw [if_neg htk] at h ⊢
      have := ih (t + 1) (tick hw cfg i (temps t) (utils t) s).2.1 h
      rw [this]
      have ht : t + 1 + k = t + (k + 1) := by omega
      rw [ht]

/-- C1 counterexample: with threshold 30, a managed HIGH device that is
idle and cool for 31 consecutive ticks is still HIGH after tick 31 —
the code checks `iterations > threshold` before incrementing
(src/main.c:697-705), so the demotion does not happen on tick 31. -/
theorem idle_demotion_not_tick31_cex :
    (runTicks hwAllOk defaultConfig 0 (fun _ => 0) (fun _ => 0) 0 31
        { initGpuState with managed := true, pstateId := 16 }).2.pstateId = 16 ∧
    ¬((runTicks hwAllOk defaultConfig 0 (fun _ => 0) (fun _ => 0) 0 31
        { initGpuState with managed := true, pstateId := 16 }).2.pstateId =
      defaultConfig.performanceStateLow) := by
  exact ⟨by decide, by decide⟩

/-- C1 (amended): starting from HIGH with counter 0 and threshold 30, a
managed device that is idle and under the ceiling on every tick stays HIGH
through tick 31 — each tick incrementing the counter by one — and,
provided the run completes, transitions to LOW exactly on tick 32, the
first tick whose previously accumulated counter exceeds the threshold. -/
theorem idle_demotion_tick32 (hw : Hw) (cfg : Config) (i : Nat)
    (temps utils : Nat → Nat) (s0 : GpuState)
    (hthr : cfg.iterationsBeforeSwitch = 30)
    (hlow : cfg.performanceStateLow < UINT_MOD)
    (hm : s0.managed = true)
    (hph : s0.pstateId = cfg.performanceStateHigh)
    (hne : ¬cfg.performanceStateHigh = cfg.performanceStateLow)
    (hit : s0.iterations = 0)
    (hidle : ∀ t, t < 32 → temps t ≤ cfg.temperatureThreshold ∧ utils t = 0)
    (hok : (runTicks hw cfg i temps utils 0 32 s0).1 = true) :
    (∀ k, k ≤ 31 →
      runTicks hw cfg i temps utils 0 k s0 = (true, { s0 with iterations := k })) ∧
    (runTicks hw cfg i temps utils 0 32 s0).2.pstateId = cfg.performanceStateLow := by
  have hhi : ¬s0.pstateId = cfg.performanceStateLow := by rw [hph]; exact hne
  have hmod : cfg.iterationsBeforeSwitch + 1 < UINT_MOD := by rw [hthr]; decide
  have hpart1 : ∀ k, k ≤ 31 →
      runTicks hw cfg i temps utils 0 k s0 = (true, { s0 with iterations := k }) := by
    intro k hk
    have h := runTicks_idle_phase hw cfg i temps utils k 0 s0 hhi
      (fun u hu1 hu2 => hidle u (by omega)) (by omega) hmod
    rw [h, hit, Nat.zero_add]
  refine ⟨hpart1, ?_⟩
  have h31 := hpart1 31 (by omega)
  have happ : runTicks hw cfg i temps utils 0 32 s0 =
      runTicks hw cfg i temps utils 31 1 { s0 with iterations := 31 } :=
    runTicks_append hw cfg i temps utils 1 { s0 with iterations := 31 } 31 0 s0 h31
  rw [happ] at hok ⊢
  simp only [runTicks] at hok ⊢
  have ht31 := hidle 31 (by omega)
  have hnt : ¬temps 31 > cfg.temperatureThreshold := by have := ht31.1; omega
  by_cases he : (enter_pstate hw cfg.enableClockFallback i (cfg.performanceStateLow % UINT_MOD)
      cfg.clockFreqMemHigh cfg.clockFreqGpuHigh cfg.clockFreqMemLow cfg.clockFreqGpuLow
      { s0 with iterations := 31 }).1 = false
  · simp [tick, hnt, ht31.2, hhi, hthr, he] at hok
  · have he' : (enter_pstate hw cfg.enableClockFallback i (cfg.performanceStateLow % UINT_MOD)
        cfg.clockFreqMemHigh cfg.clockFreqGpuHigh cfg.clockFreqMemLow cfg.clockFreqGpuLow
        { s0 with iterations := 31 }).1 = true := by
      revert he
      cases (enter_pstate hw cfg.enableClockFallback i (cfg.performanceStateLow % UINT_MOD)
        cfg.clockFreqMemHigh cfg.clockFreqGpuHigh cfg.clockFreqMemLow cfg.clockFreqGpuLow
        { s0 with iterations := 31 }).1 <;> simp
    have hfields := enter_pstate_ok_fields hw cfg.enableClockFallback i
      (cfg.performanceStateLow % UINT_MOD)
      cfg.clockFreqMemHigh cfg.clockFreqGpuHigh cfg.clockFreqMemLow cfg.clockFreqGpuLow
      { s0 with iterations := 31 } hm he'
    simp [tick, hnt, ht31.2, hhi, hthr, he']
    rw [hfields.1]
    exact Nat.mod_eq_of_lt hlow

/-- Witness for C1: default config, constant temperature 70 and
utilization 0; the device is still HIGH after tick 31 and LOW after
tick 32. -/
theorem idle_demotion_tick32_witness :
    runTicks hwAllOk defaultConfig 0 (fun _ => 70) (fun _ => 0) 0 31
        { initGpuState with managed := true, pstateId := 16 } =
      (true, { initGpuState with managed := true, pstateId := 16, iterations := 31 }) ∧
    (runTicks hwAllOk defaultConfig 0 (fun _ => 70) (fun _ => 0) 0 32
        { initGpuState with managed := true, pstateId := 16 }).2.pstateId =
      defaultConfig.performanceStateLow :=
  let h := idle_demotion_tick32 hwAllOk defaultConfig 0 (fun _ => 70) (fun _ => 0)
    { initGpuState with managed := true, pstateId := 16 }
    rfl (by decide) rfl rfl (by decide) rfl
    (fun t _ => ⟨(by decide : (70 : Nat) ≤ defaultConfig.temperatureThreshold), rfl⟩) (by decide)
  ⟨h.1 31 (by decide), h.2⟩

/-! ## C8 -/

theorem reconcile_length (busA busB : List Nat) :
    (reconcile busA busB).length = busA.length := by
  unfold reconcile
  exact List.length_map ..

theorem findMatch_some (v : Nat) (busB : List Nat) (j : Nat)
    (h : findMatch v busB = some j) :
    ∃ hj : j < busB.length, busB[j] = v := by
  unfold findMatch at h
  rw [List.findIdx?_eq_some_iff_getElem] at h
  obtain ⟨hj, hpj, _⟩ := h
  exact ⟨hj, by simpa using hpj⟩

theorem findMatch_isSome (v : Nat) (busB : List Nat) (h : v ∈ busB) :
    ∃ j, findMatch v busB = some j := by
  unfold findMatch
  have hs : (busB.findIdx? (fun w => w == v)).isSome = true := by
    rw [List.findIdx?_isSome]
    exact List.any_eq_true.mpr ⟨v, h, by simp⟩
  exact Option.isSome_iff_exists.mp hs

theorem reconcile_entry (busA busB : List Nat) (k j : Nat)
    (h : (reconcile busA busB)[k]? = some (some j)) :
    ∃ hk : k < busA.length, findMatch busA[k] busB = some j := by
  unfold reconcile at h
  rw [List.getElem?_map] at h
  cases hA : busA[k]? with
  | none => rw [hA] at h; simp at h
  | some v =>
    rw [hA] at h
    simp only [Option.map_some', Option.some.injEq] at h
    obtain ⟨hk, hv⟩ := List.getElem?_eq_some_iff.mp hA
    exact ⟨hk, by rw [hv]; exact h⟩

/-- C8: with pairwise-distinct canonical bus ids each present in the other
source, reconciliation matches every canonical index to an index of the
other source with equal bus value, injectively and surjectively — a
bijection canonical index → source-B index. -/
theorem reconcile_bijection (busA busB : List Nat)
    (hlen : busA.length = busB.length)
    (hnd : busA.Nodup)
    (hsub : ∀ v, v ∈ busA → v ∈ busB) :
    (∀ k, (hk : k < busA.length) → ∃ j, ∃ hj : j < busB.length,
      (reconcile busA busB)[k]? = some (some j) ∧ busB[j] = busA[k]) ∧
    (∀ k1 k2 j : Nat, (reconcile busA busB)[k1]? = some (some j) →
      (reconcile busA busB)[k2]? = some (some j) → k1 = k2) ∧
    (∀ j, j < busB.length →
      ∃ k, ∃ hk : k < busA.length, (reconcile busA busB)[k]? = some (some j)) := by
  have hmatch : ∀ k, (hk : k < busA.length) → ∃ j, ∃ hj : j < busB.length,
      (reconcile busA busB)[k]? = some (some j) ∧ busB[j] = busA[k] := by
    intro k hk
    have hmem : busA[k] ∈ busA := List.get_mem busA k hk
    obtain ⟨j, hj⟩ := findMatch_isSome busA[k] busB (hsub _ hmem)
    obtain ⟨hjlt, hbj⟩ := findMatch_some _ _ _ hj
    refine ⟨j, hjlt, ?_, hbj⟩
    unfold reconcile
    rw [List.getElem?_map, List.getElem?_eq_getElem hk]
    simp [hj]
  have hinj : ∀ k1 k2 j : Nat, (reconcile busA busB)[k1]? = some (some j) →
      (reconcile busA busB)[k2]? = some (some j) → k1 = k2 := by
    intro k1 k2 j h1 h2
    obtain ⟨hk1, hf1⟩ := reconcile_entry busA busB k1 j h1
    obtain ⟨hk2, hf2⟩ := reconcile_entry busA busB k2 j h2
    obtain ⟨hj1, hb1⟩ := findMatch_some _ _ _ hf1
    obtain ⟨hj2, hb2⟩ := findMatch_some _ _ _ hf2
    have heq : busA[k1] = busA[k2] := by rw [← hb1, ← hb2]
    exact (List.Nodup.getElem_inj_iff hnd).mp heq
  refine ⟨hmatch, hinj, ?_⟩
  intro j hj
  have hFex : ∀ k : Fin busA.length, ∃ jB : Fin busB.length,
      (reconcile busA busB)[k.1]? = some (some jB.1) := by
    intro k
    obtain ⟨jB, hjB, heq, _⟩ := hmatch k.1 k.2
    exact ⟨⟨jB, hjB⟩, heq⟩
  choose F hF using hFex
  have hFinj : Function.Injective F := by
    intro k1 k2 hEq
    have h1 := hF k1
    rw [hEq] at h1
    exact Fin.ext (hinj k1.1 k2.1 (F k2).1 h1 (hF k2))
  have hGinj : Function.Injective (fun k => finCongr hlen.symm (F k)) :=
    (finCongr hlen.symm).injective.comp hFinj
  obtain ⟨k, hk⟩ := Finite.injective_iff_surjective.mp hGinj
    (finCongr hlen.symm ⟨j, hj⟩)
  have hFk : F k = ⟨j, hj⟩ := (finCongr hlen.symm).injective hk
  refine ⟨k.1, k.2, ?_⟩
  have := hF k
  rw [hFk] at this
  exact this

/-- Witness for C8: Scenario E — source A reports bus ids [3,1,2], source
B reports [1,2,3]; canonical devices 0,1,2 map to B-indices 2,0,1. -/
theorem reconcile_bijection_witness :
    ([3, 1, 2] : List Nat).length = ([1, 2, 3] : List Nat).length ∧
    ([3, 1, 2] : List Nat).Nodup ∧
    (∀ v, v ∈ ([3, 1, 2] : List Nat) → v ∈ ([1, 2, 3] : List Nat)) ∧
    reconcile [3, 1, 2] [1, 2, 3] = [some 2, some 0, some 1] ∧
    (∀ k, (hk : k < ([3, 1, 2] : List Nat).length) → ∃ j,
      ∃ hj : j < ([1, 2, 3] : List Nat).length,
      (reconcile [3, 1, 2] [1, 2, 3])[k]? = some (some j) ∧
      ([1, 2, 3] : List Nat)[j] = ([3, 1, 2] : List Nat)[k]) :=
  ⟨by decide, by decide, by decide, by decide,
    (reconcile_bijection [3, 1, 2] [1, 2, 3] (by decide) (by decide) (by decide)).1⟩

/-! ## C10 -/

theorem apply_ids_cons (id : Nat) (ids : List Nat) (dc : Nat)
    (states : Nat → GpuState) :
    apply_ids (id :: ids) dc states =
      apply_ids ids dc
        (if invalid_id id dc then states
         else fun j => if j = id then { states j with managed := true } else states j) :=
  rfl

theorem apply_ids_managed_mono (ids : List Nat) (dc : Nat) :
    ∀ (states : Nat → GpuState) (j : Nat), (states j).managed = true →
      (apply_ids ids dc states j).managed = true := by
  induction ids with
  | nil => intro states j h; exact h
  | cons id rest ih =>
    intro states j h
    rw [apply_ids_cons]
    apply ih
    by_cases hv : invalid_id id dc
    · simp [hv, h]
    · simp only [hv, Bool.false_eq_true, if_false]
      by_cases hj : j = id
      · simp [hj]
      · simp [hj, h]

/-- C10: the explicit-id validation `id < 0 || id > deviceCount` rejects
only ids strictly greater than the device count — the `id < 0` disjunct is
never true on an unsigned id — so an id equal to `deviceCount` (one past
the last valid device index) is accepted and marks the out-of-range record
`gpuStates[deviceCount]` as managed. -/
theorem gpu_id_validation_off_by_one :
    (∀ id deviceCount : Nat, invalid_id id deviceCount = decide (id > deviceCount)) ∧
    (∀ (ids : List Nat) (deviceCount : Nat) (states : Nat → GpuState) (id : Nat),
      id ∈ ids → id ≤ deviceCount →
      (apply_ids ids deviceCount states id).managed = true) ∧
    (∀ (ids : List Nat) (deviceCount : Nat) (states : Nat → GpuState),
      deviceCount ∈ ids →
      (apply_ids ids deviceCount states deviceCount).managed = true) := by
  have hvalid : ∀ id deviceCount : Nat,
      invalid_id id deviceCount = decide (id > deviceCount) := by
    intro id dc
    have hnz : ¬id < 0 := by omega
    simp [invalid_id, hnz]
  have hmark : ∀ (ids : List Nat) (deviceCount : Nat) (states : Nat → GpuState)
      (id : Nat), id ∈ ids → id ≤ deviceCount →
      (apply_ids ids deviceCount states id).managed = true := by
    intro ids
    induction ids with
    | nil => intro dc states id h _; exact absurd h (List.not_mem_nil id)
    | cons a rest ih =>
      intro dc states id hmem hle
      rw [apply_ids_cons]
      rcases List.mem_cons.mp hmem with rfl | hmem'
      · apply apply_ids_managed_mono
        have hv : invalid_id id dc = false := by
          rw [hvalid]
          simpa using hle
        simp [hv]
      · exact ih dc _ id hmem' hle
  exact ⟨hvalid, hmark, fun ids dc states h => hmark ids dc states dc h le_rfl⟩

/-- Witness for C10: device count 2, id list [2]; the id equal to the
device count is accepted and `gpuStates[2]` becomes managed. -/
theorem gpu_id_validation_off_by_one_witness :
    invalid_id 2 2 = decide ((2 : Nat) > 2) ∧
    (2 : Nat) ∈ ([2] : List Nat) ∧
    (apply_ids [2] 2 (fun _ => initGpuState) 2).managed = true :=
  ⟨gpu_id_validation_off_by_one.1 2 2, by decide,
    gpu_id_validation_off_by_one.2.2 [2] 2 (fun _ => initGpuState) (by decide)⟩

end NvidiaPstated
